import Mathlib

/-!
Verification of the frontend-chatbot client against its design spec.

The embedded code comes from the repository's documented components:
the `ChatWindow` widget (`sendMessage`, the `message` socket handler
`handleMessage`, the session-initialization effect), the
`AdminDashboard` (`sendReply`, `handleSessionsList`), the socket
configuration, the HTTP retrieval helpers (`getChats`,
`getChatMessages`), the `ChatGPTService` (`generateResponse`) and the
admin `MessageBubble` presentation component.
-/

namespace Chatbot

/-! ## Data model -/

/-- Sender role of a message: the closed two-variant enum
`'user' | 'admin'` used throughout the client. -/
inductive Role
  | user
  | admin
deriving DecidableEq, Repr

/-- A chat message as the client builds and renders it:
`{ sender, content, createdAt }`.  `createdAt` is the creation time
(`new Date().toISOString()` in the source), modelled as a natural-number
tick of a monotone clock; distinct creation events get distinct ticks,
which also stands in for the distinct object identity of each message
instance. -/
structure Msg where
  sender : Role
  content : String
  createdAt : Nat
deriving DecidableEq, Repr

/-- JavaScript's `String.prototype.trim`: strip leading and trailing
whitespace.  (Defined over the character list so that it is fully
executable inside the kernel; `String.trim` from core computes the same
string but does not reduce definitionally.) -/
def jsTrim (s : String) : String :=
  ⟨((s.data.dropWhile Char.isWhitespace).reverse.dropWhile Char.isWhitespace).reverse⟩

/-- The other participant of the two-party conversation. -/
def otherRole : Role → Role
  | .user => .admin
  | .admin => .user

/-- The role of the local actor in the end-user `ChatWindow` client. -/
def localRole : Role := Role.user

/-! ## Message Reconciliation Engine (`ChatWindow`) -/

/-- The `message` socket handler of `ChatWindow` (`handleMessage`):
only messages with `sender === 'admin'` are appended to the visible
list; user-role pushes (echoes of this client's own sends) are
ignored. -/
def handleMessage (messages : List Msg) (message : Msg) : List Msg :=
  if message.sender = Role.admin then messages ++ [message] else messages

/-- A `socket.emit` call with its event name and payload fields. -/
structure EmitEvent where
  event : String
  sessionId : String
  content : String
deriving DecidableEq, Repr

/-- State of the end-user `ChatWindow` component relevant to sending:
the visible `messages` list, the events emitted on the socket so far,
the current session identifier, and the monotone clock supplying
creation timestamps. -/
structure ChatState where
  messages : List Msg
  emitted : List EmitEvent
  sessionId : String
  clock : Nat
deriving DecidableEq, Repr

/-- The `sendMessage` handler of `ChatWindow`: when the trimmed input is non-empty
(JS truthiness of `messageText.trim()`), append the user message
optimistically and emit `user_message`; otherwise do nothing. -/
def sendMessage (st : ChatState) (messageText : String) : ChatState :=
  if jsTrim messageText ≠ "" then
    { messages := st.messages ++ [⟨Role.user, jsTrim messageText, st.clock⟩]
      emitted := st.emitted ++ [⟨"user_message", st.sessionId, jsTrim messageText⟩]
      sessionId := st.sessionId
      clock := st.clock + 1 }
  else st

/-- Initial `ChatWindow` state: no messages, nothing emitted. -/
def initialChatState (sessionId : String) : ChatState :=
  { messages := [], emitted := [], sessionId := sessionId, clock := 0 }

/-- Run a finite sequence of `sendMessage` calls from the empty state. -/
def runSends (sessionId : String) (texts : List String) : ChatState :=
  texts.foldl sendMessage (initialChatState sessionId)

/-- Whether a submitted text survives validation: non-empty after
trimming whitespace. -/
def nonBlank (t : String) : Bool := jsTrim t ≠ ""

/-! ## Conversation Roster Sync (`AdminDashboard`) -/

/-- One entry of the operator's roster (`sessions-list` payload
element): a session identifier plus summary payload. -/
structure RosterEntry where
  sessionId : String
  lastMessage : String
deriving DecidableEq, Repr

/-- State of the `AdminDashboard` component: the roster, the currently
selected conversation, the admin view's message list, the emitted
socket events and the clock supplying creation timestamps. -/
structure AdminState where
  sessions : List RosterEntry
  selectedSession : Option RosterEntry
  sessionMessages : List Msg
  emitted : List EmitEvent
  clock : Nat
deriving DecidableEq, Repr

/-- The `sendReply` handler of `AdminDashboard`: when the trimmed reply is
non-empty and a session is selected, append the admin message to the
admin view immediately and emit `admin_message`; otherwise do
nothing. -/
def sendReply (st : AdminState) (replyText : String) : AdminState :=
  match st.selectedSession with
  | some sel =>
    if jsTrim replyText ≠ "" then
      { st with
        sessionMessages := st.sessionMessages ++ [⟨Role.admin, jsTrim replyText, st.clock⟩]
        emitted := st.emitted ++ [⟨"admin_message", sel.sessionId, jsTrim replyText⟩]
        clock := st.clock + 1 }
    else st
  | none => st

/-- The `handleSessionsList` handler of `AdminDashboard`: replace the whole roster
with the pushed snapshot; if a session is selected, look it up by
identifier in the new snapshot and, only when found, re-bind the
selection to the found entry. -/
def handleSessionsList (st : AdminState) (sessionsList : List RosterEntry) : AdminState :=
  let st1 := { st with sessions := sessionsList }
  match st.selectedSession with
  | none => st1
  | some sel =>
    match sessionsList.find? (fun s => s.sessionId == sel.sessionId) with
    | some updated => { st1 with selectedSession := some updated }
    | none => st1

/-- Initial `AdminDashboard` state with a selected conversation and no
messages yet. -/
def initialAdminState (sel : RosterEntry) : AdminState :=
  { sessions := [sel], selectedSession := some sel, sessionMessages := []
    emitted := [], clock := 0 }

/-- Run a finite sequence of `sendReply` calls from the empty admin
view with a fixed selected conversation. -/
def runReplies (sel : RosterEntry) (texts : List String) : AdminState :=
  texts.foldl sendReply (initialAdminState sel)

/-! ## Synchronization model for one conversation

The interleaving of client-side `sendMessage` calls with server-side
persistence and pushes, for one end-user conversation.  The client's
visible list evolves exactly by the code above: `sendMessage` appends
optimistically, and every server push is delivered through
`handleMessage`.  The server's authoritative sequence appends a user
message when the backend persists an emitted `user_message` (and then
pushes the echo back, which `handleMessage` discards) and appends an
admin message when the operator sends one (pushed to the client, which
`handleMessage` appends). -/

/-- One atomic event of the interleaving. -/
inductive SyncEvent
  | localSend (text : String)
  | serverConfirm
  | peerSend (text : String)
deriving DecidableEq, Repr

/-- Joint state of the client view and the backend for one
conversation: `visible` is the client's rendered list, `server` the
backend's authoritative persisted sequence, `pending` the
locally-originated messages emitted but not yet persisted (in-flight,
FIFO), and `clock` the monotone creation-time source. -/
structure SyncState where
  visible : List Msg
  server : List Msg
  pending : List Msg
  clock : Nat
deriving DecidableEq, Repr

def initialSyncState : SyncState := ⟨[], [], [], 0⟩

/-- Transition function.  `localSend` is `sendMessage`: a blank text is
a no-op, otherwise the trimmed message is appended to the visible list
and emitted (enters `pending`).  `serverConfirm` persists the oldest
in-flight user message and pushes the echo, which the client runs
through `handleMessage`.  `peerSend` persists an operator message and
pushes it, which the client also runs through `handleMessage`. -/
def syncStep (st : SyncState) : SyncEvent → SyncState
  | .localSend text =>
    if jsTrim text ≠ "" then
      { visible := st.visible ++ [⟨Role.user, jsTrim text, st.clock⟩]
        server := st.server
        pending := st.pending ++ [⟨Role.user, jsTrim text, st.clock⟩]
        clock := st.clock + 1 }
    else st
  | .serverConfirm =>
    match st.pending with
    | [] => st
    | m :: rest =>
      { visible := handleMessage st.visible m
        server := st.server ++ [m]
        pending := rest
        clock := st.clock }
  | .peerSend text =>
    { visible := handleMessage st.visible ⟨Role.admin, text, st.clock⟩
      server := st.server ++ [⟨Role.admin, text, st.clock⟩]
      pending := st.pending
      clock := st.clock + 1 }

/-- A reachable state: the result of any finite interleaving. -/
def syncRun (events : List SyncEvent) : SyncState :=
  events.foldl syncStep initialSyncState

/-- Boolean test for a user-role message. -/
def isUserMsg (m : Msg) : Bool := m.sender == Role.user

/-- Boolean test for an admin-role message. -/
def isAdminMsg (m : Msg) : Bool := m.sender == Role.admin

/-- Inductive invariant of the synchronization model: per-role order
agreement between client and server (user messages of the client view
are the server's user messages followed by the in-flight ones; admin
messages agree exactly), strictly increasing creation ticks along the
visible list, clock freshness, and in-flight messages being
user-originated. -/
def syncInv (s : SyncState) : Prop :=
  s.visible.filter isUserMsg = s.server.filter isUserMsg ++ s.pending
  ∧ s.visible.filter isAdminMsg = s.server.filter isAdminMsg
  ∧ s.visible.Pairwise (fun a b => a.createdAt < b.createdAt)
  ∧ (∀ m ∈ s.visible, m.createdAt < s.clock)
  ∧ (∀ m ∈ s.pending, m.sender = Role.user)

/-- The strong ordering reading of the reconciliation invariant: the
confirmed messages (those present in the server sequence), taken in the
client's visible order, coincide with the server's order. -/
def serverOrderAgrees (s : SyncState) : Prop :=
  s.visible.filter (fun m => decide (m ∈ s.server)) = s.server

/-- A three-event interleaving: an optimistic local send, a peer
(admin) message pushed before the backend persists the local send, and
then the backend persisting the local send. -/
def raceTrace : List SyncEvent :=
  [.localSend "A", .peerSend "B", .serverConfirm]

/-! ## Session Identity Resolver (`ChatWindow` init effect) -/

/-- One observable action of the session-initialization effect, in
program order: a `localStorage.setItem('chatSessionId', v)`, a
`setCurrentSessionId(v)` state update, or the
`socket.emit('init_session', { sessionId })` handshake. -/
inductive SessionAction
  | setItem (value : String)
  | setCurrentSessionId (value : String)
  | emitInitSession (sessionId : String)
deriving DecidableEq, Repr

/-- The synthesized identifier:
`` `session_${Date.now()}_${Math.random().toString(36).substr(2, 9)}` ``. -/
def synthSessionId (now : Nat) (randomSuffix : String) : String :=
  "session_" ++ toString now ++ "_" ++ randomSuffix

/-- The session-initialization `useEffect` of `ChatWindow`, as the list
of actions it performs, given the durable-storage value under the fixed
key `'chatSessionId'` (`none` models `getItem` returning `null`) and
the identifier that would be synthesized.  `!sessionId` is JS
truthiness: `null` and the empty string both count as absent. -/
def initSessionEffect (stored : Option String) (fresh : String) : List SessionAction :=
  match stored with
  | none => [.setItem fresh, .setCurrentSessionId fresh, .emitInitSession fresh]
  | some s =>
    if s = "" then [.setItem fresh, .setCurrentSessionId fresh, .emitInitSession fresh]
    else [.setCurrentSessionId s, .emitInitSession s]

/-- Durable-storage value under `'chatSessionId'` after a list of
actions. -/
def storageAfter (stored : Option String) (actions : List SessionAction) : Option String :=
  actions.foldl (fun acc a => match a with | .setItem v => some v | _ => acc) stored

/-- The identifier sent with the `init_session` handshake, if any. -/
def emittedSessionId (actions : List SessionAction) : Option String :=
  actions.findSome? fun a => match a with | .emitInitSession v => some v | _ => none

/-- Whether an action writes durable storage. -/
def isSetItem : SessionAction → Bool
  | .setItem _ => true
  | _ => false

/-! ## Connection Manager (socket configuration) -/

/-- A socket.io transport. -/
inductive Transport
  | websocket
  | polling
deriving DecidableEq, Repr

/-- The socket.io client options the repository sets.  A `none` field
means the option is not set at the call site, so the library default
applies (reconnection defaults to enabled, reconnection attempts
default to unlimited, reconnection delay defaults to 1000 ms). -/
structure SocketConfig where
  transports : List Transport
  reconnection : Option Bool
  reconnectionAttempts : Option Nat
  reconnectionDelay : Option Nat
  timeout : Option Nat
deriving DecidableEq, Repr

/-- The socket construction documented under "Connection Management":
`io(url, { transports: ['websocket', 'polling'], reconnection: true,
reconnectionAttempts: 5, reconnectionDelay: 1000 })`. -/
def socketConfig : SocketConfig :=
  { transports := [.websocket, .polling]
    reconnection := some true
    reconnectionAttempts := some 5
    reconnectionDelay := some 1000
    timeout := none }

/-- The socket construction documented under "Socket Client Setup
(`socket.js`)": `io(url, { transports: ['websocket', 'polling'],
timeout: 20000 })`. -/
def socketConfigV2 : SocketConfig :=
  { transports := [.websocket, .polling]
    reconnection := none
    reconnectionAttempts := none
    reconnectionDelay := none
    timeout := some 20000 }

/-- Effective reconnection flag: the library default is `true` when the
option is not set. -/
def reconnectionEnabled (c : SocketConfig) : Bool := c.reconnection.getD true

/-- Whether the number of reconnection attempts is bounded: only when
the option is set (the library default is `Infinity`). -/
def attemptsBounded (c : SocketConfig) : Bool := c.reconnectionAttempts.isSome

/-! ## Retrieval interface (`chatApi.js`) -/

/-- A `fetch` response: HTTP status, the derived success flag
(`res.ok`), and the value `res.json()` parses to. -/
structure FetchResponse (α : Type) where
  status : Nat
  ok : Bool
  jsonBody : α

/-- Function `getChats`: fetch the conversation list and return `res.json()`
unconditionally — the status is never inspected. -/
def getChats {α : Type} (res : FetchResponse α) : α := res.jsonBody

/-- Function `getChatMessages`: fetch one conversation's history and return
`res.json()` unconditionally — the status is never inspected. -/
def getChatMessages {α : Type} (sessionId : String) (res : FetchResponse α) : α :=
  res.jsonBody

/-- The URL `getChatMessages` requests. -/
def chatMessagesUrl (sessionId : String) : String :=
  "http://localhost:4000/api/chats/" ++ sessionId

/-! ## ChatGPTService (`chatgpt.jsx`) -/

/-- A message of the completion API request body: `{ role, content }`. -/
structure ChatMsg where
  role : String
  content : String
deriving DecidableEq, Repr

/-- The fixed system message of `generateResponse`. -/
def systemMessage : ChatMsg :=
  ⟨"system", "You are a helpful assistant. Provide concise, helpful responses to user questions."⟩

/-- JavaScript `conversationHistory.slice(-5)`: the last `min 5 length` elements,
in order. -/
def sliceLast5 (l : List ChatMsg) : List ChatMsg := l.drop (l.length - 5)

/-- The `messages` array `generateResponse` builds: the system message,
then `conversationHistory.slice(-5)`, then the user message. -/
def buildMessages (userMessage : String) (conversationHistory : List ChatMsg) : List ChatMsg :=
  [systemMessage] ++ sliceLast5 conversationHistory ++ [⟨"user", userMessage⟩]

/-- The completion request body: model `gpt-3.5-turbo`, the built
message list, `max_tokens: 500`, `temperature: 0.7`. -/
structure ChatRequestBody where
  model : String
  messages : List ChatMsg
  maxTokens : Nat
  temperature : ℚ
deriving DecidableEq, Repr

/-- The request body `generateResponse` sends for the given user
message and conversation history. -/
def chatRequestBody (userMessage : String) (conversationHistory : List ChatMsg) :
    ChatRequestBody :=
  { model := "gpt-3.5-turbo"
    messages := buildMessages userMessage conversationHistory
    maxTokens := 500
    temperature := 7 / 10 }

/-- The completion API's HTTP response: the `res.ok` flag, the status
code, and `data.choices[0].message.content` of the success body. -/
structure HttpResponse where
  ok : Bool
  status : Nat
  content : String
deriving DecidableEq, Repr

/-- The key guard of `generateResponse`:
`!this.apiKey || this.apiKey === 'your_openai_api_key_here'`.
`none` models `import.meta.env` leaving the key `undefined`; the empty
string is also falsy. -/
def apiKeyInvalid (apiKey : Option String) : Bool :=
  match apiKey with
  | none => true
  | some k => k = "" || k = "your_openai_api_key_here"

/-- The `generateResponse` method of `ChatGPTService`: fail when the key is
missing or the placeholder; otherwise send `chatRequestBody` and fail
with the status when the response is not ok; otherwise return the
trimmed completion text.  The environment answering the request is
passed as the function `server`. -/
def generateResponse (apiKey : Option String) (userMessage : String)
    (conversationHistory : List ChatMsg) (server : ChatRequestBody → HttpResponse) :
    Except String String :=
  if apiKeyInvalid apiKey then
    .error "OpenAI API key is not configured"
  else
    let response := server (chatRequestBody userMessage conversationHistory)
    if !response.ok then
      .error ("OpenAI API error: " ++ toString response.status)
    else
      .ok (jsTrim response.content)

/-! ## Admin `MessageBubble` presentation component -/

/-- A JavaScript message object as `MessageBubble` receives it: any of
the four field names may be present (`some`) or absent/`undefined`
(`none`). -/
structure JsMessage where
  text : Option String
  timestamp : Option String
  content : Option String
  createdAt : Option String
deriving DecidableEq, Repr

/-- What `MessageBubble` renders as data: the body paragraph and the
timestamp line.  (The `isAdmin` prop only switches CSS classes and the
avatar letter, not these fields.) -/
structure BubbleView where
  body : String
  time : String
deriving DecidableEq, Repr

/-- The admin `MessageBubble` component: renders `{message.text}` and
`{message.timestamp}`; React renders an `undefined` field as empty
text. -/
def MessageBubble (message : JsMessage) : BubbleView :=
  { body := message.text.getD ""
    time := message.timestamp.getD "" }

/-! ## Helper lemmas -/

theorem sendMessage_messages (st : ChatState) (t : String) :
    (sendMessage st t).messages =
      if nonBlank t then st.messages ++ [⟨Role.user, jsTrim t, st.clock⟩]
      else st.messages := by
  by_cases h : jsTrim t = "" <;> simp [sendMessage, nonBlank, h]

theorem sendMessage_emitted (st : ChatState) (t : String) :
    (sendMessage st t).emitted =
      if nonBlank t then st.emitted ++ [⟨"user_message", st.sessionId, jsTrim t⟩]
      else st.emitted := by
  by_cases h : jsTrim t = "" <;> simp [sendMessage, nonBlank, h]

theorem sendMessage_sessionId (st : ChatState) (t : String) :
    (sendMessage st t).sessionId = st.sessionId := by
  by_cases h : jsTrim t = "" <;> simp [sendMessage, h]

/-- Fold characterization of a run of `sendMessage` calls, generalized
over the initial state. -/
theorem foldl_sendMessage_spec (texts : List String) (st : ChatState) :
    ((texts.foldl sendMessage st).messages.map Msg.content =
       st.messages.map Msg.content ++ (texts.filter nonBlank).map jsTrim)
    ∧ ((texts.foldl sendMessage st).emitted =
       st.emitted ++ (texts.filter nonBlank).map
         (fun t => ⟨"user_message", st.sessionId, jsTrim t⟩)) := by
  induction texts generalizing st with
  | nil => simp
  | cons t ts ih =>
    have hsid := sendMessage_sessionId st t
    rcases ih (sendMessage st t) with ⟨hm, he⟩
    by_cases h : nonBlank t
    · refine ⟨?_, ?_⟩
      · rw [List.foldl_cons, hm, sendMessage_messages]
        simp [h]
      · rw [List.foldl_cons, he, sendMessage_emitted, hsid]
        simp [h]
    · refine ⟨?_, ?_⟩
      · rw [List.foldl_cons, hm, sendMessage_messages]
        simp [h]
      · rw [List.foldl_cons, he, sendMessage_emitted, hsid]
        simp [h]

theorem sendReply_sessionMessages (st : AdminState) (sel : RosterEntry)
    (hsel : st.selectedSession = some sel) (t : String) :
    (sendReply st t).sessionMessages =
      if nonBlank t then st.sessionMessages ++ [⟨Role.admin, jsTrim t, st.clock⟩]
      else st.sessionMessages := by
  by_cases h : jsTrim t = "" <;> simp [sendReply, hsel, nonBlank, h]

theorem sendReply_emitted (st : AdminState) (sel : RosterEntry)
    (hsel : st.selectedSession = some sel) (t : String) :
    (sendReply st t).emitted =
      if nonBlank t then st.emitted ++ [⟨"admin_message", sel.sessionId, jsTrim t⟩]
      else st.emitted := by
  by_cases h : jsTrim t = "" <;> simp [sendReply, hsel, nonBlank, h]

theorem sendReply_selectedSession (st : AdminState) (t : String) :
    (sendReply st t).selectedSession = st.selectedSession := by
  rcases hsel : st.selectedSession with _ | sel
  · simp [sendReply, hsel]
  · by_cases h : jsTrim t = "" <;> simp [sendReply, hsel, h]

/-- Fold characterization of a run of `sendReply` calls with a stable
selected conversation, generalized over the initial state. -/
theorem foldl_sendReply_spec (texts : List String) (st : AdminState) (sel : RosterEntry)
    (hsel : st.selectedSession = some sel) :
    ((texts.foldl sendReply st).sessionMessages.map Msg.content =
       st.sessionMessages.map Msg.content ++ (texts.filter nonBlank).map jsTrim)
    ∧ ((texts.foldl sendReply st).emitted =
       st.emitted ++ (texts.filter nonBlank).map
         (fun t => ⟨"admin_message", sel.sessionId, jsTrim t⟩)) := by
  induction texts generalizing st with
  | nil => simp
  | cons t ts ih =>
    have hsel' : (sendReply st t).selectedSession = some sel := by
      rw [sendReply_selectedSession]; exact hsel
    rcases ih (sendReply st t) hsel' with ⟨hm, he⟩
    by_cases h : nonBlank t
    · refine ⟨?_, ?_⟩
      · rw [List.foldl_cons, hm, sendReply_sessionMessages st sel hsel]
        simp [h]
      · rw [List.foldl_cons, he, sendReply_emitted st sel hsel]
        simp [h]
    · refine ⟨?_, ?_⟩
      · rw [List.foldl_cons, hm, sendReply_sessionMessages st sel hsel]
        simp [h]
      · rw [List.foldl_cons, he, sendReply_emitted st sel hsel]
        simp [h]

/-! ## Claim theorems -/

/-- C1: `mergeIncoming` (the `message` handler delivered by the
Connection Manager) discards a pushed message whose sender role equals
the local actor's own role, leaving the visible sequence unchanged, and
appends a message from the other party exactly at the tail, preserving
the prior elements and their order. -/
theorem mergeIncoming_echo_discarded_peer_appended (s : List Msg) (m : Msg) :
    (m.sender = localRole → handleMessage s m = s)
    ∧ (m.sender = otherRole localRole → handleMessage s m = s ++ [m]) := by
  constructor
  · intro h
    simp [handleMessage, localRole] at h ⊢
    simp [h]
  · intro h
    simp [otherRole, localRole] at h
    simp [handleMessage, h]

/-- Witness for C1: the spec's end-to-end scenario — a user echo is
discarded, an admin push is appended at the tail. -/
theorem mergeIncoming_echo_discarded_peer_appended_witness :
    handleMessage [⟨Role.user, "Hello", 0⟩] ⟨Role.user, "Hello", 1⟩
        = [⟨Role.user, "Hello", 0⟩]
    ∧ handleMessage [⟨Role.user, "Hello", 0⟩] ⟨Role.admin, "Hi there", 1⟩
        = [⟨Role.user, "Hello", 0⟩, ⟨Role.admin, "Hi there", 1⟩] :=
  ⟨(mergeIncoming_echo_discarded_peer_appended
      [⟨Role.user, "Hello", 0⟩] ⟨Role.user, "Hello", 1⟩).1 rfl,
   (mergeIncoming_echo_discarded_peer_appended
      [⟨Role.user, "Hello", 0⟩] ⟨Role.admin, "Hi there", 1⟩).2 rfl⟩

/-- C3: a finite run of `appendLocal` calls from the empty sequence
(user side `sendMessage`, operator side `sendReply`) yields exactly one
visible entry per call whose content is non-empty after trimming, in
call order, with one matching socket emission per such call; a blank
call appends nothing and transmits nothing. -/
theorem appendLocal_runs_spec (sessionId : String) (sel : RosterEntry)
    (texts : List String) :
    ((runSends sessionId texts).messages.length = (texts.filter nonBlank).length)
    ∧ ((runSends sessionId texts).messages.map Msg.content
        = (texts.filter nonBlank).map jsTrim)
    ∧ ((runSends sessionId texts).emitted
        = (texts.filter nonBlank).map (fun t => ⟨"user_message", sessionId, jsTrim t⟩))
    ∧ ((runReplies sel texts).sessionMessages.length = (texts.filter nonBlank).length)
    ∧ ((runReplies sel texts).sessionMessages.map Msg.content
        = (texts.filter nonBlank).map jsTrim)
    ∧ ((runReplies sel texts).emitted
        = (texts.filter nonBlank).map (fun t => ⟨"admin_message", sel.sessionId, jsTrim t⟩))
    ∧ (∀ (st : ChatState) (t : String), jsTrim t = "" → sendMessage st t = st)
    ∧ (∀ (st : AdminState) (t : String), jsTrim t = "" → sendReply st t = st) := by
  have hs := foldl_sendMessage_spec texts (initialChatState sessionId)
  have hr := foldl_sendReply_spec texts (initialAdminState sel) sel rfl
  simp only [initialChatState, initialAdminState, List.map_nil, List.nil_append] at hs hr
  refine ⟨?_, hs.1, hs.2, ?_, hr.1, hr.2, ?_, ?_⟩
  · have := congrArg List.length hs.1
    simpa using this
  · have := congrArg List.length hr.1
    simpa using this
  · intro st t h
    simp [sendMessage, h]
  · intro st t h
    rcases hsel : st.selectedSession with _ | s
    · simp [sendReply, hsel]
    · simp [sendReply, hsel, h]

/-- Witness for C3 at a concrete run: of the calls `"Hello"` and a
whitespace-only text, only the first appends, and the blank call is a
no-op for both clients. -/
theorem appendLocal_runs_spec_witness :
    (runSends "s1" ["Hello", "   "]).messages.map Msg.content = ["Hello"]
    ∧ sendMessage (initialChatState "s1") "   " = initialChatState "s1"
    ∧ sendReply (initialAdminState ⟨"s1", "m"⟩) "   " = initialAdminState ⟨"s1", "m"⟩ := by
  have h := appendLocal_runs_spec "s1" ⟨"s1", "m"⟩ ["Hello", "   "]
  exact ⟨h.2.1.trans (by decide),
    h.2.2.2.2.2.2.1 (initialChatState "s1") "   " (by decide),
    h.2.2.2.2.2.2.2 (initialAdminState ⟨"s1", "m"⟩) "   " (by decide)⟩

theorem syncInv_initial : syncInv initialSyncState := by
  refine ⟨rfl, rfl, ?_, ?_, ?_⟩ <;> simp [initialSyncState]

/-- Every transition of the synchronization model preserves the
inductive invariant. -/
theorem syncInv_step (s : SyncState) (e : SyncEvent) (h : syncInv s) :
    syncInv (syncStep s e) := by
  obtain ⟨hu, ha, hp, hb, hps⟩ := h
  cases e with
  | localSend text =>
    by_cases ht : jsTrim text = ""
    · simpa [syncStep, ht] using ⟨hu, ha, hp, hb, hps⟩
    · refine ⟨?_, ?_, ?_, ?_, ?_⟩
      · simp only [syncStep, ht, if_neg, ite_not, if_false, ne_eq, not_false_iff, if_true]
        rw [List.filter_append, hu]
        simp [isUserMsg, List.append_assoc]
      · simp only [syncStep, ht, ne_eq, not_false_iff, if_true]
        rw [List.filter_append, ha]
        simp [isAdminMsg]
      · simp only [syncStep, ht, ne_eq, not_false_iff, if_true]
        rw [List.pairwise_append]
        refine ⟨hp, List.pairwise_singleton _ _, ?_⟩
        intro a hamem b hbmem
        simp only [List.mem_singleton] at hbmem
        subst hbmem
        exact hb a hamem
      · simp only [syncStep, ht, ne_eq, not_false_iff, if_true]
        intro x hx
        rcases List.mem_append.mp hx with hx1 | hx2
        · exact Nat.lt_trans (hb x hx1) (Nat.lt_succ_self _)
        · simp only [List.mem_singleton] at hx2
          subst hx2
          exact Nat.lt_succ_self _
      · simp only [syncStep, ht, ne_eq, not_false_iff, if_true]
        intro x hx
        rcases List.mem_append.mp hx with hx1 | hx2
        · exact hps x hx1
        · simp only [List.mem_singleton] at hx2
          subst hx2
          rfl
  | serverConfirm =>
    rcases hpend : s.pending with _ | ⟨m, rest⟩
    · simpa [syncStep, hpend] using ⟨hu, ha, hp, hb, hpend ▸ hps⟩
    · have hm : m.sender = Role.user := hps m (by rw [hpend]; exact List.mem_cons_self m rest)
      have hv : handleMessage s.visible m = s.visible := by
        simp [handleMessage, hm]
      refine ⟨?_, ?_, ?_, ?_, ?_⟩
      · simp only [syncStep, hpend, hv]
        rw [hu, hpend, List.filter_append]
        simp [isUserMsg, hm]
      · simp only [syncStep, hpend, hv]
        rw [List.filter_append, ha]
        simp [isAdminMsg, hm]
      · simpa [syncStep, hpend, hv] using hp
      · simpa [syncStep, hpend, hv] using hb
      · simp only [syncStep, hpend]
        intro x hx
        exact hps x (by rw [hpend]; exact List.mem_cons_of_mem m hx)
  | peerSend text =>
    have hv : handleMessage s.visible ⟨Role.admin, text, s.clock⟩
        = s.visible ++ [⟨Role.admin, text, s.clock⟩] := by
      simp [handleMessage]
    refine ⟨?_, ?_, ?_, ?_, ?_⟩
    · simp only [syncStep, hv]
      rw [List.filter_append, List.filter_append, hu]
      simp [isUserMsg, List.append_assoc]
    · simp only [syncStep, hv]
      rw [List.filter_append, List.filter_append, ha]
    · simp only [syncStep, hv]
      rw [List.pairwise_append]
      refine ⟨hp, List.pairwise_singleton _ _, ?_⟩
      intro a hamem b hbmem
      simp only [List.mem_singleton] at hbmem
      subst hbmem
      exact hb a hamem
    · simp only [syncStep, hv]
      intro x hx
      rcases List.mem_append.mp hx with hx1 | hx2
      · exact Nat.lt_trans (hb x hx1) (Nat.lt_succ_self _)
      · simp only [List.mem_singleton] at hx2
        subst hx2
        exact Nat.lt_succ_self _
    · simpa [syncStep] using hps

/-- The invariant holds in every reachable state. -/
theorem syncInv_syncRun (events : List SyncEvent) : syncInv (syncRun events) := by
  have main : ∀ (evs : List SyncEvent) (s : SyncState),
      syncInv s → syncInv (evs.foldl syncStep s) := by
    intro evs
    induction evs with
    | nil => intro s hs; exact hs
    | cons e es ih => intro s hs; exact ih _ (syncInv_step s e hs)
  exact main events initialSyncState syncInv_initial

/-- In a two-valued role model, the non-user messages are exactly the
admin messages. -/
theorem filter_not_isUserMsg (l : List Msg) :
    l.filter (fun m => !isUserMsg m) = l.filter isAdminMsg :=
  List.filter_congr fun x _ => by
    cases hx : x.sender <;> simp [isUserMsg, isAdminMsg, hx]

/-- C2 (amended): in every reachable state of any interleaving of
`appendLocal` calls and server deliveries for one conversation, the
rendered sequence contains exactly the server's authoritative messages
together with the not-yet-confirmed locally-originated messages (it is
a permutation of their concatenation), with no element duplicated; the
relative order of messages of each single role matches the server's
order (the client's user messages are the server's user messages
followed by the in-flight ones, and its admin messages are exactly the
server's admin messages) — though the interleaving of the two roles
may differ from the server's order. -/
theorem syncRun_reconciliation_invariant (events : List SyncEvent) :
    ((syncRun events).visible).Perm ((syncRun events).server ++ (syncRun events).pending)
    ∧ ((syncRun events).visible).Nodup
    ∧ (syncRun events).visible.filter isUserMsg
        = (syncRun events).server.filter isUserMsg ++ (syncRun events).pending
    ∧ (syncRun events).visible.filter isAdminMsg
        = (syncRun events).server.filter isAdminMsg := by
  obtain ⟨hu, ha, hp, hb, hps⟩ := syncInv_syncRun events
  refine ⟨?_, ?_, hu, ha⟩
  · have h1 := (List.filter_append_perm isUserMsg (syncRun events).visible).symm
    rw [filter_not_isUserMsg, hu, ha] at h1
    have h3 := List.filter_append_perm isUserMsg (syncRun events).server
    rw [filter_not_isUserMsg] at h3
    have h5 : (((syncRun events).server.filter isUserMsg ++ (syncRun events).pending)
          ++ (syncRun events).server.filter isAdminMsg).Perm
        ((syncRun events).server ++ (syncRun events).pending) := by
      rw [List.append_assoc]
      refine (List.Perm.append_left _ List.perm_append_comm).trans ?_
      rw [← List.append_assoc]
      exact List.Perm.append_right _ h3
    exact h1.trans h5
  · exact hp.imp fun {a b} hlt heq => absurd (heq ▸ hlt) (lt_irrefl _)

/-- Counterexample to C2 as stated: after the reachable interleaving
`raceTrace` (optimistic local send, peer push, then confirmation of the
local send), every message is confirmed, yet the client's visible order
of the confirmed messages differs from the server's authoritative
order — the echo-discard policy keeps the local message at its
optimistic position. -/
theorem syncRun_server_order_counterexample :
    ¬ serverOrderAgrees (syncRun raceTrace) := by
  unfold serverOrderAgrees raceTrace
  decide

/-- C4 (amended): on a `sessions-list` push the roster is replaced by
the snapshot; when a conversation is selected and an entry with its
identifier is found in the snapshot, the selection is re-bound to that
entry; when no such entry is found, the selection is left unchanged
(the stale previous entry stays selected — it is not cleared). -/
theorem handleSessionsList_selection (st : AdminState) (snapshot : List RosterEntry) :
    ((handleSessionsList st snapshot).sessions = snapshot)
    ∧ (st.selectedSession = none → (handleSessionsList st snapshot).selectedSession = none)
    ∧ (∀ sel, st.selectedSession = some sel →
        (∀ u, snapshot.find? (fun s => s.sessionId == sel.sessionId) = some u →
          (handleSessionsList st snapshot).selectedSession = some u)
        ∧ (snapshot.find? (fun s => s.sessionId == sel.sessionId) = none →
          (handleSessionsList st snapshot).selectedSession = some sel)) := by
  refine ⟨?_, ?_, ?_⟩
  · rcases hsel : st.selectedSession with _ | sel
    · simp [handleSessionsList, hsel]
    · rcases hfind : snapshot.find? (fun s => s.sessionId == sel.sessionId) with _ | u <;>
        simp [handleSessionsList, hsel, hfind]
  · intro hsel
    simp [handleSessionsList, hsel]
  · intro sel hsel
    constructor
    · intro u hfind
      simp [handleSessionsList, hsel, hfind]
    · intro hfind
      simp [handleSessionsList, hsel, hfind]

/-- Witness for C4 (amended) at concrete inputs: a snapshot containing
the selected identifier re-binds the selection to the new entry; a
snapshot without it leaves the stale selection in place. -/
theorem handleSessionsList_selection_witness :
    (handleSessionsList (initialAdminState ⟨"s1", "old"⟩)
        [⟨"s1", "new"⟩]).selectedSession = some ⟨"s1", "new"⟩
    ∧ (handleSessionsList (initialAdminState ⟨"s1", "old"⟩)
        [⟨"s2", "x"⟩]).selectedSession = some ⟨"s1", "old"⟩ := by
  have h1 := handleSessionsList_selection (initialAdminState ⟨"s1", "old"⟩) [⟨"s1", "new"⟩]
  have h2 := handleSessionsList_selection (initialAdminState ⟨"s1", "old"⟩) [⟨"s2", "x"⟩]
  exact ⟨(h1.2.2 ⟨"s1", "old"⟩ rfl).1 ⟨"s1", "new"⟩ (by decide),
    (h2.2.2 ⟨"s1", "old"⟩ rfl).2 (by decide)⟩

/-- Counterexample to C4 as stated: with `s1` selected and a pushed
snapshot in which `s1` is absent, the selection is not cleared after
`sessions-list` processing — the stale entry remains selected. -/
theorem handleSessionsList_not_cleared_counterexample :
    (handleSessionsList (initialAdminState ⟨"s1", "hello"⟩)
        [⟨"s2", "other"⟩]).selectedSession = some ⟨"s1", "hello"⟩
    ∧ (handleSessionsList (initialAdminState ⟨"s1", "hello"⟩)
        [⟨"s2", "other"⟩]).selectedSession ≠ none := by
  decide

/-- A synthesized identifier is never the empty string (it starts with
the literal `session_`), so it never counts as absent under JS
truthiness. -/
theorem synthSessionId_ne_empty (now : Nat) (randomSuffix : String) :
    synthSessionId now randomSuffix ≠ "" := by
  intro h
  have hlen := congrArg String.length h
  simp [synthSessionId, String.length_append] at hlen
  exact absurd hlen.1.1.1 (by decide)

/-- C5: the Session Identity Resolver is idempotent on durable storage:
whatever the initial storage, a second activation after a first one
performs no storage write and initiates the handshake with the very
identifier the first activation used; and on empty storage the
synthesized identifier is written to storage strictly before the
`init_session` handshake is initiated. -/
theorem initSession_idempotent (stored : Option String) (now : Nat)
    (randomSuffix fresh2 : String) :
    ((initSessionEffect (storageAfter stored
        (initSessionEffect stored (synthSessionId now randomSuffix))) fresh2).filter
          isSetItem = [])
    ∧ emittedSessionId (initSessionEffect (storageAfter stored
        (initSessionEffect stored (synthSessionId now randomSuffix))) fresh2)
      = emittedSessionId (initSessionEffect stored (synthSessionId now randomSuffix))
    ∧ initSessionEffect none (synthSessionId now randomSuffix)
      = [.setItem (synthSessionId now randomSuffix),
         .setCurrentSessionId (synthSessionId now randomSuffix),
         .emitInitSession (synthSessionId now randomSuffix)] := by
  have hne := synthSessionId_ne_empty now randomSuffix
  rcases stored with _ | s
  · refine ⟨?_, ?_, rfl⟩ <;>
      simp [initSessionEffect, storageAfter, emittedSessionId, isSetItem, hne]
  · by_cases hs : s = ""
    · subst hs
      refine ⟨?_, ?_, rfl⟩ <;>
        simp [initSessionEffect, storageAfter, emittedSessionId, isSetItem, hne]
    · refine ⟨?_, ?_, rfl⟩ <;>
        simp [initSessionEffect, storageAfter, emittedSessionId, isSetItem, hs]

/-- C6 (amended): both socket configurations documented in the
repository prefer the websocket transport with polling fallback and
have reconnection effectively enabled; the "Connection Management"
configuration bounds reconnection attempts at 5 with a fixed 1000 ms
delay, while the "Socket Client Setup" configuration sets no
reconnection options at all, leaving the library-default unlimited
attempts. -/
theorem socket_config_spec :
    socketConfig.transports = [Transport.websocket, Transport.polling]
    ∧ socketConfigV2.transports = [Transport.websocket, Transport.polling]
    ∧ reconnectionEnabled socketConfig = true
    ∧ reconnectionEnabled socketConfigV2 = true
    ∧ socketConfig.reconnectionAttempts = some 5
    ∧ socketConfig.reconnectionDelay = some 1000
    ∧ attemptsBounded socketConfig = true
    ∧ socketConfigV2.reconnectionAttempts = none
    ∧ socketConfigV2.reconnectionDelay = none
    ∧ socketConfigV2.timeout = some 20000 := by
  decide

/-- Counterexample to C6 as stated: not every socket configuration in
the repository bounds the number of reconnection attempts — the
"Socket Client Setup" configuration leaves `reconnectionAttempts`
unset, so the library default (unlimited attempts) applies. -/
theorem socket_config_counterexample :
    ¬ (∀ c ∈ [socketConfig, socketConfigV2], attemptsBounded c = true) := by
  decide

/-- C7: `generateResponse` fails with a descriptive error value — not
a message — when the API key is missing, empty or the placeholder, and
when the HTTP response is not ok; the embedded operation is a pure
function of its own arguments, taking neither the conversation's
message sequence nor the roster state, so a failure cannot modify
either. -/
theorem generateResponse_failure (apiKey : Option String) (userMessage : String)
    (conversationHistory : List ChatMsg) (server : ChatRequestBody → HttpResponse) :
    (apiKeyInvalid apiKey = true →
      generateResponse apiKey userMessage conversationHistory server
        = .error "OpenAI API key is not configured")
    ∧ (apiKeyInvalid apiKey = false →
      (server (chatRequestBody userMessage conversationHistory)).ok = false →
      generateResponse apiKey userMessage conversationHistory server
        = .error ("OpenAI API error: "
            ++ toString (server (chatRequestBody userMessage conversationHistory)).status)) := by
  constructor
  · intro h
    simp [generateResponse, h]
  · intro hkey hok
    simp [generateResponse, hkey, hok]

/-- Witness for C7 at concrete inputs: a missing key fails with the
configuration error even when the server would answer 200; a non-ok
401 response fails with the status error. -/
theorem generateResponse_failure_witness :
    generateResponse none "Hi" [] (fun _ => ⟨true, 200, "ok"⟩)
        = .error "OpenAI API key is not configured"
    ∧ generateResponse (some "sk-test") "Hi" [] (fun _ => ⟨false, 401, ""⟩)
        = .error ("OpenAI API error: " ++ toString 401) := by
  have h1 := generateResponse_failure none "Hi" [] (fun _ => ⟨true, 200, "ok"⟩)
  have h2 := generateResponse_failure (some "sk-test") "Hi" [] (fun _ => ⟨false, 401, ""⟩)
  exact ⟨h1.1 rfl, h2.2 (by decide) rfl⟩

/-- C8: `getChats` and `getChatMessages` return the parsed JSON body
for every response, never inspecting the status or success flag — the
result is the same for a success and for a failure response with the
same body. -/
theorem getChats_returns_body (α : Type) (status1 status2 : Nat) (ok1 ok2 : Bool)
    (body : α) (sessionId : String) :
    getChats ⟨status1, ok1, body⟩ = body
    ∧ getChatMessages sessionId ⟨status1, ok1, body⟩ = body
    ∧ getChats (⟨status1, ok1, body⟩ : FetchResponse α) = getChats ⟨status2, ok2, body⟩
    ∧ getChatMessages sessionId (⟨status1, ok1, body⟩ : FetchResponse α)
        = getChatMessages sessionId ⟨status2, ok2, body⟩ :=
  ⟨rfl, rfl, rfl, rfl⟩

/-- C9: `MessageBubble` renders its body from `message.text` and its
timestamp from `message.timestamp` (absent fields render as empty
text); a message shaped as the data model's Message — `content` and
`createdAt` set, no `text`/`timestamp` — therefore renders with empty
body and empty timestamp, and the rendered output never depends on
`content`/`createdAt`. -/
theorem MessageBubble_reads_text_and_timestamp (m : JsMessage)
    (content createdAt : String) :
    (MessageBubble m).body = m.text.getD ""
    ∧ (MessageBubble m).time = m.timestamp.getD ""
    ∧ MessageBubble ⟨none, none, some content, some createdAt⟩ = ⟨"", ""⟩
    ∧ MessageBubble m = MessageBubble ⟨m.text, m.timestamp, none, none⟩ :=
  ⟨rfl, rfl, rfl, rfl⟩

/-- C10: the message list of the request body `generateResponse` sends
is the system message, followed by the last `min 5 length` entries of
the conversation history in their original order (a suffix of the
history), followed by the user message — `min 5 length + 2` entries in
total. -/
theorem chatRequestBody_messages (userMessage : String)
    (conversationHistory : List ChatMsg) :
    (chatRequestBody userMessage conversationHistory).messages
        = systemMessage :: (conversationHistory.drop (conversationHistory.length - 5)
            ++ [⟨"user", userMessage⟩])
    ∧ (chatRequestBody userMessage conversationHistory).messages.length
        = min 5 conversationHistory.length + 2
    ∧ (conversationHistory.drop (conversationHistory.length - 5)).length
        = min 5 conversationHistory.length
    ∧ conversationHistory.drop (conversationHistory.length - 5) <:+ conversationHistory := by
  refine ⟨?_, ?_, ?_, List.drop_suffix _ _⟩
  · simp [chatRequestBody, buildMessages, sliceLast5]
  · simp only [chatRequestBody, buildMessages, sliceLast5, List.length_append,
      List.length_cons, List.length_singleton, List.length_nil, List.length_drop]
    omega
  · simp only [List.length_drop]
    omega

end Chatbot
